import Mathlib

/-!
Shallow embedding of the IPC actors (gateway and subnet actor) of
OxfordStreet/ipc-actors, translated from src/gateway/src/lib.rs and
src/subnet-actor/src/lib.rs.  The modules those files pull in
(the gateway's state.rs / cross.rs / checkpoint.rs / subnet.rs, the
subnet actor's state.rs, and the ipc-sdk address types) are not part of
the source tree; every definition standing in for one of them carries a
doc comment starting with "Modelled from the spec:".

Conventions of the embedding:
* machine integers / TokenAmount (a big integer) become Int;
  ChainEpoch becomes Int; addresses become Nat;
* content-addressed links (Cid / TCid) are identified with an injective
  structural encoding of the content into Nat;
* fallible code returns Except, and each actor method returns its final
  state, the list of outbound sends performed after the transaction, and
  an optional error.  A transaction that aborts leaves the state
  unchanged (all-or-nothing), mirroring rt.transaction.
-/

namespace IpcActors

/-- Raw addresses (fvm_shared Address) are modelled as naturals. -/
abbrev Addr := Nat

/-- Modelled from the spec: SubnetID (ipc-sdk, not in src) is an ordered
list of addresses forming a path from the root. -/
abbrev SubnetID := List Addr

/-- Modelled from the spec: the subnet actor of a SubnetID is its last
element (the actor address on the parent network). -/
def SubnetID.subnetActor (s : SubnetID) : Addr := s.getLast?.getD 0

/-- Modelled from the spec: SubnetID::new_from_parent appends the child
actor address to the parent path. -/
def SubnetID.newFromParent (parent : SubnetID) (a : Addr) : SubnetID := parent ++ [a]

/-- Modelled from the spec: SubnetID::default(), the empty id. -/
def subnetDefault : SubnetID := []

/-- Modelled from the spec: n is a proper ancestor of s when s shares n
as a prefix and n is strictly shorter (the path from n to s goes down). -/
def isProperAncestor (n s : SubnetID) : Bool :=
  n.isPrefixOf s && decide (n.length < s.length)

/-- Modelled from the spec: common_parent is the deepest subnet that is
an ancestor (or equal) of both, i.e. the longest common path. -/
def commonParent : SubnetID → SubnetID → SubnetID
  | a :: as, b :: bs => if a = b then a :: commonParent as bs else []
  | _, _ => []

/-- Modelled from the spec: the immediate child subnet of n along the
path toward dest, when dest lies strictly below n. -/
def downChildTo (n dest : SubnetID) : Option SubnetID :=
  if isProperAncestor n dest then some (dest.take (n.length + 1)) else none

/-- Modelled from the spec: IPCAddress is a pair (SubnetID, RawAddress);
equality is structural. -/
structure IPCAddress where
  subnet : SubnetID
  rawAddr : Addr
deriving DecidableEq, Repr

/-- Modelled from the spec: StorableMsg carries from, to, value, nonce,
method and params.  The Rust field `from` is a Lean keyword and is named
from_ here; params (RawBytes) are opaque and modelled as a Nat. -/
structure StorableMsg where
  from_ : IPCAddress
  to_ : IPCAddress
  value : Int
  nonce : Nat
  method : Nat
  params : Nat
deriving DecidableEq, Repr

/-- CrossMsg pairs a StorableMsg with the wrapped flag (carried but not
behaviorally distinguished). -/
structure CrossMsg where
  msg : StorableMsg
  wrapped : Bool
deriving DecidableEq, Repr

/-- The two classifications of a cross-message. -/
inductive IPCMsgType where
  | topDown
  | bottomUp
deriving DecidableEq, Repr

/-- Modelled from the spec: apply_type classifies a message relative to
the current network N: TopDown iff to.subnet is a proper descendant of N,
BottomUp otherwise (a message whose to.subnet equals N is BottomUp). -/
def applyType (n : SubnetID) (m : StorableMsg) : IPCMsgType :=
  if isProperAncestor n m.to_.subnet then .topDown else .bottomUp

/-- Modelled from the spec: the CrossMsgs bundle attached to a
checkpoint: the message list standing behind msgs_cid (content-addressed,
so the default / empty cid is identified with the empty list), the
aggregated value and the fee. -/
structure CrossMsgMeta where
  msgs : List CrossMsg
  value : Int
  fee : Int
deriving DecidableEq, Repr

/-- Modelled from the spec: a child-checkpoint entry of a window
checkpoint: the child source and the cids of its committed checkpoints. -/
structure ChildCheck where
  source : SubnetID
  checks : List Nat
deriving DecidableEq, Repr

/-- Modelled from the spec: a Checkpoint holds its epoch, source subnet,
the content-hash of the previous checkpoint (a Nat cid), an optional
cross-message bundle and the child checkpoint entries. -/
structure Checkpoint where
  epoch : Int
  source : SubnetID
  prev_check : Nat
  cross_msgs : Option CrossMsgMeta
  child_checks : List ChildCheck
deriving DecidableEq, Repr

/-- Injective encoding of Int into Nat, used by the content hashes. -/
def encodeInt : Int → Nat
  | Int.ofNat n => 2 * n
  | Int.negSucc n => 2 * n + 1

/-- Injective encoding of a list given an encoding of its elements. -/
def encodeList (f : α → Nat) : List α → Nat
  | [] => 0
  | a :: as => Nat.pair (f a) (encodeList f as) + 1

/-- Encoding of IPC addresses. -/
def encodeIPC (a : IPCAddress) : Nat :=
  Nat.pair (encodeList id a.subnet) a.rawAddr

/-- Encoding of storable messages. -/
def encodeStorableMsg (m : StorableMsg) : Nat :=
  Nat.pair (encodeIPC m.from_)
    (Nat.pair (encodeIPC m.to_)
      (Nat.pair (encodeInt m.value)
        (Nat.pair m.nonce (Nat.pair m.method m.params))))

/-- Encoding of cross messages. -/
def encodeCrossMsg (c : CrossMsg) : Nat :=
  Nat.pair (encodeStorableMsg c.msg) (cond c.wrapped 1 0)

/-- Encoding of cross-message bundles. -/
def encodeMeta (m : CrossMsgMeta) : Nat :=
  Nat.pair (encodeList encodeCrossMsg m.msgs)
    (Nat.pair (encodeInt m.value) (encodeInt m.fee))

/-- Encoding of an optional value. -/
def encodeOption (f : α → Nat) : Option α → Nat
  | none => 0
  | some a => f a + 1

/-- Encoding of child-check entries. -/
def encodeChildCheck (cc : ChildCheck) : Nat :=
  Nat.pair (encodeList id cc.source) (encodeList id cc.checks)

/-- Modelled from the spec: the content-hash (cid) of a checkpoint,
realised as an injective structural encoding into Nat. -/
def checkpointCid (ch : Checkpoint) : Nat :=
  Nat.pair (encodeInt ch.epoch)
    (Nat.pair (encodeList id ch.source)
      (Nat.pair ch.prev_check
        (Nat.pair (encodeOption encodeMeta ch.cross_msgs)
          (encodeList encodeChildCheck ch.child_checks))))

/-- A postbox item: the parked cross-message and its optional owner set. -/
structure PostBoxItem where
  cross_msg : CrossMsg
  owners : Option (List Addr)
deriving DecidableEq, Repr

/-- Status of a registered subnet in the gateway registry. -/
inductive Status where
  | active
  | inactive
  | killed
deriving DecidableEq, Repr

/-- Modelled from the spec: a gateway registry entry for a child subnet. -/
structure GwSubnet where
  id : SubnetID
  stake : Int
  topdown_nonce : Nat
  topdown_msgs : List CrossMsg
  circ_supply : Int
  status : Status
  prev_checkpoint : Option Checkpoint
deriving DecidableEq, Repr

/-- Error kinds surfaced by the actors (exit-code classes of ActorError). -/
inductive ActorErr where
  | illegalArgument
  | illegalState
  | insufficientFunds
  | unhandledMessage
  | forbidden
  | sendFailed
deriving DecidableEq, Repr

/-- Association-list lookup, keyed by a decidable key. -/
def alookup [DecidableEq κ] (k : κ) : List (κ × α) → Option α
  | [] => none
  | (k', v) :: rest => if k' = k then some v else alookup k rest

/-- Association-list insert-or-replace. -/
def aset [DecidableEq κ] (k : κ) (v : α) : List (κ × α) → List (κ × α)
  | [] => [(k, v)]
  | (k', v') :: rest => if k' = k then (k, v) :: rest else (k', v') :: aset k v rest

/-- Association-list removal of a key. -/
def aremove [DecidableEq κ] (k : κ) : List (κ × α) → List (κ × α)
  | [] => []
  | (k', v') :: rest => if k' = k then aremove k rest else (k', v') :: aremove k rest

/-- MIN_COLLATERAL_AMOUNT in atto tokens.  Modelled from the spec:
the constant lives in the gateway's types module, which is not in src;
the spec only says it is configured, so we fix the conventional 10^18. -/
def MIN_COLLATERAL_AMOUNT : Int := 10 ^ 18

/-- CROSS_MSG_FEE = TokenAmount::from_nano(100), i.e. 100 * 10^9 atto. -/
def CROSS_MSG_FEE : Int := 100 * 10 ^ 9

/-- The burnt-funds actor address (the burn sink). -/
def BURNT_FUNDS_ADDR : Addr := 99

/-- The gateway actor state root.  Modelled from the spec: the gateway's
state.rs is not in src; fields follow the persisted state layout of the
spec (registry map, checkpoint ledger, bottom-up batches, postbox,
nonces, configuration). -/
structure State where
  network_name : SubnetID
  check_period : Int
  subnets : List (SubnetID × GwSubnet)
  checkpoints : List (Int × Checkpoint)
  bottomup_msg_metas : List CrossMsgMeta
  postbox : List (Nat × PostBoxItem)
  nonce : Nat
  applied_bottomup_nonce : Nat
  applied_topdown_nonce : Nat
deriving DecidableEq, Repr

/-- Modelled from the spec: State::get_subnet, registry lookup. -/
def getSubnet (st : State) (id : SubnetID) : Option GwSubnet :=
  alookup id st.subnets

/-- Modelled from the spec: State::flush_subnet stores the entry under
its id. -/
def flushSubnet (st : State) (sub : GwSubnet) : State :=
  { st with subnets := aset sub.id sub st.subnets }

/-- Modelled from the spec: Subnet::add_stake adds the (possibly
negative) amount to the collateral and recomputes the status against
MIN_COLLATERAL_AMOUNT (Active once the threshold is reached, Inactive
below it). -/
def subAddStake (sub : GwSubnet) (amt : Int) : GwSubnet :=
  let s := sub.stake + amt
  { sub with
    stake := s
    status := if s < MIN_COLLATERAL_AMOUNT then .inactive else .active }

/-- Modelled from the spec: Subnet::release_supply decrements
circ_supply, failing IllegalState on underflow. -/
def releaseSupply (sub : GwSubnet) (value : Int) : Except ActorErr GwSubnet :=
  if sub.circ_supply < value then .error .illegalState
  else .ok { sub with circ_supply := sub.circ_supply - value }

/-- Modelled from the spec: the window checkpoint for the current epoch:
the stored checkpoint of the window's start epoch, or a fresh empty one
for this network. -/
def getWindowCheckpoint (st : State) (epoch : Int) : Checkpoint :=
  let we := epoch - epoch % st.check_period
  (alookup we st.checkpoints).getD ⟨we, st.network_name, 0, none, []⟩

/-- Modelled from the spec: State::flush_checkpoint stores the window
checkpoint under its epoch. -/
def flushCheckpoint (st : State) (ch : Checkpoint) : State :=
  { st with checkpoints := aset ch.epoch ch st.checkpoints }

/-- Modelled from the spec: Checkpoint::add_child_check appends the
child checkpoint, failing on a duplicate source in the same window. -/
def addChildCheck (ch commit : Checkpoint) : Except ActorErr Checkpoint :=
  if ch.child_checks.any (fun cc => cc.source == commit.source) then
    .error .illegalArgument
  else
    .ok { ch with child_checks := ch.child_checks ++ [⟨commit.source, [checkpointCid commit]⟩] }

/-- Modelled from the spec: State::store_bottomup_msg stores a committed
child bundle as a bottom-up batch. -/
def storeBottomupMsgMeta (st : State) (meta : CrossMsgMeta) : State :=
  { st with bottomup_msg_metas := st.bottomup_msg_metas ++ [meta] }

/-- Modelled from the spec: State::collect_cross_fee deducts the fee
from the value, failing InsufficientFunds when value ≤ fee; returns the
remainder. -/
def collectCrossFee (value fee : Int) : Except ActorErr Int :=
  if value ≤ fee then .error .insufficientFunds else .ok (value - fee)

/-- Modelled from the spec: State::commit_topdown_msg assigns the next
topdown_nonce of the immediate child subnet along the path toward the
destination, enqueues the message in that child's top-down queue and
accounts the value into its circulating supply; fails IllegalArgument if
the destination is not below this network or the child is not
registered.  Returns the state and the message with its assigned nonce. -/
def commitTopdownMsg (st : State) (cm : CrossMsg) : Except ActorErr (State × CrossMsg) :=
  match downChildTo st.network_name cm.msg.to_.subnet with
  | none => .error .illegalArgument
  | some cid =>
    match getSubnet st cid with
    | none => .error .illegalArgument
    | some sub =>
      let cm' := { cm with msg := { cm.msg with nonce := sub.topdown_nonce } }
      let sub' := { sub with
        topdown_nonce := sub.topdown_nonce + 1
        topdown_msgs := sub.topdown_msgs ++ [cm']
        circ_supply := sub.circ_supply + cm'.msg.value }
      .ok (flushSubnet st sub', cm')

/-- Modelled from the spec: State::commit_bottomup_msg appends the
message to the current window's cross_msgs bundle with the declared fee
and bumps the gateway's bottom-up nonce. -/
def commitBottomupMsg (st : State) (cm : CrossMsg) (fee epoch : Int) : State :=
  let ch := getWindowCheckpoint st epoch
  let meta := ch.cross_msgs.getD ⟨[], 0, 0⟩
  let meta' : CrossMsgMeta :=
    ⟨meta.msgs ++ [cm], meta.value + cm.msg.value, meta.fee + fee⟩
  let st' := flushCheckpoint st { ch with cross_msgs := some meta' }
  { st' with nonce := st'.nonce + 1 }

/-- Gateway outbound send kinds: a plain METHOD_SEND transfer, a Reward
call distributing a fee to a subnet actor, or a burn transfer. -/
inductive GwSendKind where
  | methodSend
  | reward
  | burn
deriving DecidableEq, Repr

/-- An outbound send performed by the gateway after its transaction. -/
structure GwSend where
  to_ : Addr
  kind : GwSendKind
  value : Int
deriving DecidableEq, Repr

/-- Modelled from the spec: distribute_crossmsg_fee sends the fee to the
subnet actor's Reward path when it is non-zero. -/
def distributeCrossmsgFee (subnetActorAddr : Addr) (fee : Int) : List GwSend :=
  if fee = 0 then [] else [⟨subnetActorAddr, .reward, fee⟩]

/-- gateway lib.rs commit_cross_message (lines 803-872): rejects a
destination equal to the current network, then commits the message
according to its classification.  The BottomUp path flips to a top-down
enqueue at the common parent (the fee becomes a top-down fee), otherwise
schedules the message bottom-up and flags do_burn when value > 0.  The
TopDown path increments applied_topdown_nonce and enqueues top-down.
Returns (state, updated message, do_burn, top_down_fee). -/
def commitCrossMessage (st : State) (epoch : Int) (cm : CrossMsg) (fee : Int) :
    Except ActorErr (State × CrossMsg × Bool × Int) :=
  let sto := cm.msg.to_.subnet
  if sto = st.network_name then .error .illegalState
  else
    match applyType st.network_name cm.msg with
    | .bottomUp =>
      let sfrom := cm.msg.from_.subnet
      let ncp := commonParent sto sfrom
      if ncp = st.network_name then
        match commitTopdownMsg st cm with
        | .error e => .error e
        | .ok (st', cm') => .ok (st', cm', false, fee)
      else
        let doBurn := decide (0 < cm.msg.value)
        .ok (commitBottomupMsg st cm fee epoch, cm, doBurn, 0)
    | .topDown =>
      let st₁ := { st with applied_topdown_nonce := st.applied_topdown_nonce + 1 }
      match commitTopdownMsg st₁ cm with
      | .error e => .error e
      | .ok (st', cm') => .ok (st', cm', false, fee)

/-- Modelled from the spec: cross_msg_side_effects performs the burn of
the message value and/or the top-down fee distribution to the immediate
child's subnet actor, after the transaction has committed. -/
def crossMsgSideEffects (networkName : SubnetID) (cm : CrossMsg)
    (doBurn : Bool) (topDownFee : Int) : List GwSend :=
  (if doBurn then [⟨BURNT_FUNDS_ADDR, .burn, cm.msg.value⟩] else []) ++
  (match downChildTo networkName cm.msg.to_.subnet with
   | some child => distributeCrossmsgFee child.subnetActor topDownFee
   | none => [])

/-- gateway lib.rs release_stake (lines 162-217): validates the amount,
decrements the subnet's stake inside the transaction, then transfers the
amount to the caller outside the transaction.  Following the spec's §5/§7
runtime model, a failed outbound send (sendOk = false) surfaces as the
method's failure while the committed state remains. -/
def releaseStake (st : State) (caller : Addr) (balance v : Int) (sendOk : Bool) :
    State × List GwSend × Option ActorErr :=
  if v ≤ 0 then (st, [], some .illegalArgument)
  else
    let shid := SubnetID.newFromParent st.network_name caller
    match getSubnet st shid with
    | none => (st, [], some .illegalArgument)
    | some sub =>
      if sub.stake < v then (st, [], some .illegalState)
      else if balance < v then (st, [], some .illegalState)
      else
        let st' := flushSubnet st (subAddStake sub (-v))
        if sendOk then (st', [⟨caller, .methodSend, v⟩], none)
        else (st', [], some .sendFailed)

/-- Combined failure test for the previous-checkpoint verifications of
commit_child_check (gateway lib.rs lines 312-328): with a previous
checkpoint present, the commit is rejected when its epoch lies in the
past of the previous one (prev.epoch > commit.epoch) or when its
prev_check cid differs from the previous checkpoint's cid. -/
def prevCheckFails (prev : Option Checkpoint) (commit : Checkpoint) : Bool :=
  match prev with
  | some p => decide (commit.epoch < p.epoch) || commit.prev_check != checkpointCid p
  | none => false

/-- The transactional body of commit_child_check (gateway lib.rs lines
285-388).  Returns the committed state and the fee to distribute. -/
def commitChildCheckTx (st : State) (caller : Addr) (currEpoch : Int)
    (commit : Checkpoint) : Except ActorErr (State × Int) :=
  match getSubnet st (SubnetID.newFromParent st.network_name caller) with
  | none => .error .illegalArgument
  | some sub =>
    if sub.status ≠ Status.active then .error .illegalState
    else
      let ch := getWindowCheckpoint st currEpoch
      if prevCheckFails sub.prev_checkpoint commit then .error .illegalArgument
      else
        let step : Except ActorErr (State × GwSubnet × Int) :=
          match commit.cross_msgs with
          | none => .ok (st, sub, 0)
          | some meta =>
            let st₁ := if meta.msgs ≠ [] then storeBottomupMsgMeta st meta else st
            match releaseSupply sub meta.value with
            | .error e => .error e
            | .ok sub' => .ok (st₁, sub', meta.fee)
        match step with
        | .error e => .error e
        | .ok (st₁, sub₁, fee) =>
          match addChildCheck ch commit with
          | .error e => .error e
          | .ok ch' =>
            let st₂ := flushCheckpoint st₁ ch'
            let sub₂ := { sub₁ with prev_checkpoint := some commit }
            .ok (flushSubnet st₂ sub₂, fee)

/-- gateway lib.rs commit_child_check (lines 270-392): checks that the
caller is the checkpoint source's subnet actor, runs the transaction and
then distributes the accumulated fee to that subnet actor. -/
def commitChildCheck (st : State) (caller : Addr) (currEpoch : Int)
    (commit : Checkpoint) : State × List GwSend × Option ActorErr :=
  if caller ≠ commit.source.subnetActor then (st, [], some .illegalArgument)
  else
    match commitChildCheckTx st caller currEpoch commit with
    | .error e => (st, [], some e)
    | .ok (st', fee) =>
      (st', distributeCrossmsgFee commit.source.subnetActor fee, none)

/-- The transactional body of send_cross (gateway lib.rs lines 534-583):
rejects the current network as destination, rewrites the message's to and
from, checks that the attached value equals the message value, collects
the cross-fee from the message value and commits the message. -/
def sendCrossTx (st : State) (caller : Addr) (rtValue currEpoch : Int)
    (cm0 : CrossMsg) (destination : SubnetID) :
    Except ActorErr (State × CrossMsg × Bool × Int) :=
  if destination = st.network_name then .error .illegalArgument
  else
    let msg₁ := { cm0.msg with
      to_ := ⟨destination, cm0.msg.to_.rawAddr⟩
      from_ := ⟨st.network_name, caller⟩ }
    if rtValue ≠ msg₁.value then .error .illegalArgument
    else
      match collectCrossFee msg₁.value CROSS_MSG_FEE with
      | .error e => .error e
      | .ok v' =>
        commitCrossMessage st currEpoch { cm0 with msg := { msg₁ with value := v' } }
          CROSS_MSG_FEE

/-- gateway lib.rs send_cross (lines 514-589): only non-signable callers,
destination must be set, then the transaction above followed by the
cross-message side effects. -/
def sendCross (st : State) (caller : Addr) (callerSignable : Bool)
    (rtValue currEpoch : Int) (cm0 : CrossMsg) (destination : SubnetID) :
    State × List GwSend × Option ActorErr :=
  if callerSignable then (st, [], some .forbidden)
  else if destination = subnetDefault then (st, [], some .illegalArgument)
  else
    match sendCrossTx st caller rtValue currEpoch cm0 destination with
    | .error e => (st, [], some e)
    | .ok (st', cm', doBurn, tdFee) =>
      (st', crossMsgSideEffects st.network_name cm' doBurn tdFee, none)

/-- The owner check of propagate (gateway lib.rs line 774): with an
owner set present a caller outside it is rejected; with owners = None no
check is performed. -/
def ownersReject (owners : Option (List Addr)) (caller : Addr) : Bool :=
  match owners with
  | some os => !os.contains caller
  | none => false

/-- The transactional body of propagate (gateway lib.rs lines 768-786):
loads the postbox item (failing unhandled_message when absent), applies
the owner check, collects the cross-fee from the caller-attached value,
commits the stored message and removes the postbox entry.  Returns the
state, the committed message, the side-effect flags and the value
remainder. -/
def propagateTx (st : State) (caller : Addr) (value currEpoch : Int) (cid : Nat) :
    Except ActorErr (State × CrossMsg × Bool × Int × Int) :=
  match alookup cid st.postbox with
  | none => .error .unhandledMessage
  | some item =>
    if ownersReject item.owners caller then .error .illegalState
    else
      match collectCrossFee value CROSS_MSG_FEE with
      | .error e => .error e
      | .ok value' =>
        match commitCrossMessage st currEpoch item.cross_msg CROSS_MSG_FEE with
        | .error e => .error e
        | .ok (st₁, cm', doBurn, tdFee) =>
          .ok ({ st₁ with postbox := aremove cid st₁.postbox }, cm', doBurn, tdFee, value')

/-- gateway lib.rs propagate (lines 759-796): the transaction above,
then the cross-message side effects and the refund of any non-zero value
remainder to the caller. -/
def propagate (st : State) (caller : Addr) (value currEpoch : Int) (cid : Nat) :
    State × List GwSend × Option ActorErr :=
  match propagateTx st caller value currEpoch cid with
  | .error e => (st, [], some e)
  | .ok (st', cm', doBurn, tdFee, remainder) =>
    (st', crossMsgSideEffects st.network_name cm' doBurn tdFee ++
          (if remainder ≠ 0 then [⟨caller, .methodSend, remainder⟩] else []), none)

/-- gateway lib.rs whitelist_propagator (lines 713-757): loads the item
(unhandled_message when absent), rejects items without owners
(IllegalState), rejects callers outside the owner set (IllegalState), and
otherwise extends the owner set with to_add. -/
def whitelistPropagator (st : State) (caller : Addr) (cid : Nat)
    (toAdd : List Addr) : State × Option ActorErr :=
  match alookup cid st.postbox with
  | none => (st, some .unhandledMessage)
  | some item =>
    match item.owners with
    | none => (st, some .illegalState)
    | some os =>
      if os.contains caller then
        ({ st with postbox := aset cid { item with owners := some (os ++ toAdd) } st.postbox },
         none)
      else (st, some .illegalState)

/-! ## Subnet actor (src/subnet-actor/src/lib.rs) -/

/-- Status of the subnet actor itself. -/
inductive SAStatus where
  | instantiated
  | active
  | inactive
  | terminating
  | killed
deriving DecidableEq, Repr

/-- A validator entry of the validator set: address plus net address
(the net address is opaque here). -/
structure Validator where
  addr : Addr
  net_addr : Nat
deriving DecidableEq, Repr

/-- The vote set stored for a checkpoint cid: the list of validator
addresses that voted. -/
structure Votes where
  validators : List Addr
deriving DecidableEq, Repr

/-- The subnet actor state root.  Modelled from the spec: the subnet
actor's state.rs is not in src; fields follow the validator book and
vote tally of the spec. -/
structure SAState where
  subnet_id : SubnetID
  ipc_gateway_addr : Addr
  check_period : Int
  status : SAStatus
  stake_table : List (Addr × Int)
  validator_set : List Validator
  total_stake : Int
  votesMap : List (Nat × Votes)
  checkpoints : List Checkpoint
deriving DecidableEq, Repr

/-- The call carried by a subnet-actor outbound send to the gateway (or
a plain transfer). -/
inductive SACallKind where
  | register
  | addStake
  | releaseStake (v : Int)
  | kill
  | commitChildCheckpoint (ch : Checkpoint)
  | methodSend
deriving DecidableEq, Repr

/-- An outbound send performed by the subnet actor after its
transaction. -/
structure SASend where
  to_ : Addr
  call : SACallKind
  value : Int
deriving DecidableEq, Repr

/-- Modelled from the spec: State::add_stake of the subnet actor credits
the caller's entry of the stake table, appends the caller to the
validator set (or updates its net address), and accumulates
total_stake.  It does not touch the status. -/
def saAddStake (st : SAState) (caller : Addr) (netAddr : Nat) (amount : Int) : SAState :=
  { st with
    stake_table := aset caller ((alookup caller st.stake_table).getD 0 + amount) st.stake_table
    validator_set :=
      if st.validator_set.any (fun v => v.addr == caller) then
        st.validator_set.map (fun v => if v.addr == caller then { v with net_addr := netAddr } else v)
      else st.validator_set ++ [⟨caller, netAddr⟩]
    total_stake := st.total_stake + amount }

/-- Modelled from the spec: mutate_state recomputes the status from the
total stake: Instantiated becomes Active at the collateral threshold,
Active falls to Inactive below it, Inactive comes back to Active at it;
Terminating and Killed stay put. -/
def mutateState (st : SAState) : SAState :=
  { st with
    status :=
      match st.status with
      | .instantiated =>
        if MIN_COLLATERAL_AMOUNT ≤ st.total_stake then .active else .instantiated
      | .active => if st.total_stake < MIN_COLLATERAL_AMOUNT then .inactive else .active
      | .inactive => if MIN_COLLATERAL_AMOUNT ≤ st.total_stake then .active else .inactive
      | s => s }

/-- subnet-actor lib.rs join (lines 93-143): requires a non-zero value,
credits the stake, then: while Instantiated, sends Register with the
accumulated total stake once it reaches MIN_COLLATERAL_AMOUNT (and
nothing below it); otherwise sends AddStake with the received value.
Finally mutate_state recomputes the status. -/
def join (st : SAState) (caller : Addr) (netAddr : Nat) (amount : Int) :
    SAState × Option SASend × Option ActorErr :=
  if amount = 0 then (st, none, some .illegalArgument)
  else
    let st₁ := saAddStake st caller netAddr amount
    let msg : Option SASend :=
      if st₁.status = SAStatus.instantiated then
        if MIN_COLLATERAL_AMOUNT ≤ st₁.total_stake then
          some ⟨st₁.ipc_gateway_addr, .register, st₁.total_stake⟩
        else none
      else some ⟨st₁.ipc_gateway_addr, .addStake, amount⟩
    (mutateState st₁, msg, none)

/-- Membership of the validator set (State::is_validator). -/
def isValidator (st : SAState) (a : Addr) : Bool :=
  st.validator_set.any (fun v => v.addr == a)

/-- Modelled from the spec: the stake-weighted mass of a vote list, the
sum of the voters' entries in the stake table. -/
def voteWeight (st : SAState) (vs : List Addr) : Int :=
  vs.foldl (fun acc a => acc + (alookup a st.stake_table).getD 0) 0

/-- Modelled from the spec: has_majority_vote holds when the
stake-weighted vote mass is at least two thirds of total_stake. -/
def hasMajorityVote (st : SAState) (votes : Votes) : Bool :=
  decide (2 * st.total_stake ≤ 3 * voteWeight st votes.validators)

/-- Modelled from the spec: verify_checkpoint checks the checkpoint
shape against this subnet: its source must be this subnet's id and its
epoch must sit on the checkpoint period.  Signature and schema checks
are provided by the host and are not modelled. -/
def verifyCheckpoint (st : SAState) (ch : Checkpoint) : Bool :=
  ch.source == st.subnet_id && ch.epoch % st.check_period == 0

/-- The vote-tally step of submit_checkpoint (subnet-actor lib.rs lines
277-308), after the duplicate check: append the caller's vote; with a
majority flush the checkpoint, prepare the CommitChildCheckpoint send
and remove the vote set when one was stored; otherwise persist the
updated votes. -/
def submitTally (st : SAState) (caller : Addr) (ch : Checkpoint) (cid : Nat)
    (found : Bool) (votes : Votes) : SAState × Option SASend × Option ActorErr :=
  let votes' : Votes := ⟨votes.validators ++ [caller]⟩
  if hasMajorityVote st votes' then
    let st₁ := { st with checkpoints := st.checkpoints ++ [ch] }
    let st₂ := if found then { st₁ with votesMap := aremove cid st₁.votesMap } else st₁
    (st₂, some ⟨st.ipc_gateway_addr, .commitChildCheckpoint ch, 0⟩, none)
  else
    ({ st with votesMap := aset cid votes' st.votesMap }, none, none)

/-- subnet-actor lib.rs submit_checkpoint (lines 244-319): the caller
must be a validator and the checkpoint must verify (both IllegalState
otherwise); a repeated vote by the same validator is rejected with
IllegalState; otherwise the tally step above runs. -/
def submitCheckpoint (st : SAState) (caller : Addr) (ch : Checkpoint) :
    SAState × Option SASend × Option ActorErr :=
  if !isValidator st caller then (st, none, some .illegalState)
  else if !verifyCheckpoint st ch then (st, none, some .illegalState)
  else
    let cid := checkpointCid ch
    match alookup cid st.votesMap with
    | some votes =>
      if votes.validators.contains caller then (st, none, some .illegalState)
      else submitTally st caller ch cid true votes
    | none => submitTally st caller ch cid false ⟨[]⟩

/-! ## Concrete fixtures used by witnesses and counterexamples -/

/-- A registered, active child subnet /root/1 of the root gateway. -/
def gwSub1 : GwSubnet :=
  { id := [0, 1], stake := MIN_COLLATERAL_AMOUNT, topdown_nonce := 0,
    topdown_msgs := [], circ_supply := 0, status := .active, prev_checkpoint := none }

/-- A root gateway state with the single registered child /root/1. -/
def gwSt0 : State :=
  { network_name := [0], check_period := 10, subnets := [([0, 1], gwSub1)],
    checkpoints := [], bottomup_msg_metas := [], postbox := [],
    nonce := 0, applied_bottomup_nonce := 0, applied_topdown_nonce := 0 }

/-- A cross-message handed to SendCross by an actor caller. -/
def cmC1 : CrossMsg :=
  { msg := { from_ := ⟨[0], 7⟩, to_ := ⟨[], 3⟩, value := CROSS_MSG_FEE + 5,
             nonce := 0, method := 2, params := 0 },
    wrapped := false }

/-- A previously committed checkpoint of /root/1 at epoch 5. -/
def prevCk : Checkpoint :=
  { epoch := 5, source := [0, 1], prev_check := 0, cross_msgs := none, child_checks := [] }

/-- The gateway state after /root/1 committed prevCk. -/
def gwSt2 : State :=
  { gwSt0 with subnets := [([0, 1], { gwSub1 with prev_checkpoint := some prevCk })] }

/-- A child checkpoint whose epoch equals the previously committed
epoch and whose prev_check matches the previous checkpoint's cid. -/
def ckEqualEpoch : Checkpoint :=
  { epoch := 5, source := [0, 1], prev_check := checkpointCid prevCk,
    cross_msgs := none, child_checks := [] }

/-- A first child checkpoint of /root/1 (no previous checkpoint
recorded on the parent), with an arbitrary prev_check value. -/
def ckFirst : Checkpoint :=
  { epoch := 3, source := [0, 1], prev_check := 55, cross_msgs := none, child_checks := [] }

/-- A cross-message parked in the postbox, top-down toward /root/1. -/
def cmPark : CrossMsg :=
  { msg := { from_ := ⟨[0], 2⟩, to_ := ⟨[0, 1], 4⟩, value := 0,
             nonce := 0, method := 0, params := 0 },
    wrapped := false }

/-- A postbox item owned by address 7. -/
def itemOwned : PostBoxItem := { cross_msg := cmPark, owners := some [7] }

/-- A postbox item with no owner set. -/
def itemUnowned : PostBoxItem := { cross_msg := cmPark, owners := none }

/-- The root gateway state with itemOwned parked under cid 42. -/
def gwSt3 : State := { gwSt0 with postbox := [(42, itemOwned)] }

/-- The root gateway state with itemUnowned parked under cid 43. -/
def gwSt4 : State := { gwSt0 with postbox := [(43, itemUnowned)] }

/-- A freshly instantiated subnet actor for subnet /root/2. -/
def saSt0 : SAState :=
  { subnet_id := [0, 2], ipc_gateway_addr := 50, check_period := 10,
    status := .instantiated, stake_table := [], validator_set := [],
    total_stake := 0, votesMap := [], checkpoints := [] }

/-- The subnet actor of /root/2 after a first Join of half the
collateral threshold by validator 11, still Instantiated. -/
def saStHalf : SAState :=
  { saSt0 with
    stake_table := [(11, MIN_COLLATERAL_AMOUNT / 2)]
    validator_set := [⟨11, 0⟩]
    total_stake := MIN_COLLATERAL_AMOUNT / 2 }

/-- A checkpoint of /root/2 at epoch 10, submitted for votes. -/
def chV : Checkpoint :=
  { epoch := 10, source := [0, 2], prev_check := 0, cross_msgs := none, child_checks := [] }

/-- An active subnet actor with validators 1, 2, 3 of stakes 40, 40, 20,
where validators 1 and 3 already voted for chV. -/
def saStV : SAState :=
  { subnet_id := [0, 2], ipc_gateway_addr := 50, check_period := 10,
    status := .active, stake_table := [(1, 40), (2, 40), (3, 20)],
    validator_set := [⟨1, 0⟩, ⟨2, 0⟩, ⟨3, 0⟩], total_stake := 100,
    votesMap := [(checkpointCid chV, ⟨[1, 3]⟩)], checkpoints := [] }

/-! ## Association-list lemmas -/

theorem alookup_aset_self [DecidableEq κ] (k : κ) (v : α) (l : List (κ × α)) :
    alookup k (aset k v l) = some v := by
  induction l with
  | nil => simp [aset, alookup]
  | cons p rest ih =>
    by_cases h : p.1 = k
    · simp [aset, h, alookup]
    · simp [aset, h, alookup, ih]

theorem alookup_aremove_self [DecidableEq κ] (k : κ) (l : List (κ × α)) :
    alookup k (aremove k l) = none := by
  induction l with
  | nil => simp [aremove, alookup]
  | cons p rest ih =>
    by_cases h : p.1 = k
    · simp [aremove, h, ih]
    · simp [aremove, h, alookup, ih]

theorem alookup_aremove_some [DecidableEq κ] (k' : κ) {k : κ} {w : α} {l : List (κ × α)} :
    alookup k (aremove k' l) = some w → alookup k l = some w := by
  by_cases hkk : k = k'
  · subst hkk
    intro h
    rw [alookup_aremove_self] at h
    cases h
  · induction l with
    | nil => intro h; simp [aremove, alookup] at h
    | cons p rest ih =>
      intro h
      by_cases hp : p.1 = k'
      · have hpk : p.1 ≠ k := by
          intro hh
          exact hkk (by rw [← hh, hp])
        rw [show aremove k' (p :: rest) = aremove k' rest from by simp [aremove, hp]] at h
        simp only [alookup, if_neg hpk]
        exact ih h
      · by_cases hk : p.1 = k
        · simp only [aremove, if_neg hp, alookup, if_pos hk] at h ⊢
          exact h
        · simp only [aremove, if_neg hp, alookup, if_neg hk] at h ⊢
          exact ih h

theorem alookup_aset_some [DecidableEq κ] {k k' : κ} {v w : α} {l : List (κ × α)} :
    alookup k (aset k' v l) = some w → w = v ∨ alookup k l = some w := by
  by_cases hkk : k = k'
  · subst hkk
    intro h
    rw [alookup_aset_self] at h
    exact Or.inl (Option.some.inj h).symm
  · have hkk' : k' ≠ k := fun hh => hkk hh.symm
    induction l with
    | nil =>
      intro h
      rw [show aset k' v ([] : List (κ × α)) = [(k', v)] from rfl] at h
      simp only [alookup, if_neg hkk'] at h
      cases h
    | cons p rest ih =>
      intro h
      by_cases hp : p.1 = k'
      · rw [show aset k' v (p :: rest) = (k', v) :: rest from by simp [aset, hp]] at h
        simp only [alookup, if_neg hkk'] at h
        right
        have hpk : p.1 ≠ k := by rw [hp]; exact hkk'
        simpa [alookup, hpk] using h
      · rw [show aset k' v (p :: rest) = p :: aset k' v rest from by simp [aset, hp]] at h
        by_cases hk : p.1 = k
        · right
          simp only [alookup, if_pos hk] at h ⊢
          exact h
        · simp only [alookup, if_neg hk] at h ⊢
          exact ih h

/-! ## Claim theorems -/

/-- C1: the claim states that applied_topdown_nonce changes only when
ApplyMessage applies a top-down message addressed to the current
network, and that commit_cross_message's TopDown path (reached from
SendCross and Propagate) leaves it unchanged.  The code contradicts
this: gateway lib.rs line 862 increments applied_topdown_nonce inside
commit_cross_message's TopDown enqueue path.  This theorem evaluates
the embedded SendCross at the failing input: the call succeeds, merely
enqueues a top-down message for /root/1, applies nothing, and still
bumps applied_topdown_nonce from 0 to 1. -/
theorem gw_C1_sendCross_bumps_applied_topdown_nonce :
    (sendCross gwSt0 7 false (CROSS_MSG_FEE + 5) 0 cmC1 [0, 1]).2.2 = none ∧
    gwSt0.applied_topdown_nonce = 0 ∧
    (sendCross gwSt0 7 false (CROSS_MSG_FEE + 5) 0 cmC1 [0, 1]).1.applied_topdown_nonce = 1 := by
  decide

/-- C2 counterexample: the claim states that a checkpoint whose epoch
equals the previously committed epoch is rejected.  In the code the
epoch guard is prev.epoch() > commit.epoch() (gateway lib.rs line 315),
so a checkpoint with an equal epoch and a matching prev_check commits
successfully. -/
theorem gw_C2_equal_epoch_accepted :
    ckEqualEpoch.epoch = prevCk.epoch ∧
    (commitChildCheck gwSt2 1 7 ckEqualEpoch).2.2 = none := by
  decide

/-- C2 (amended): when commit_child_check is invoked for a registered
subnet whose prev_checkpoint exists, success requires ch.epoch greater
than or equal to prev_checkpoint.epoch and ch.prev_check equal to the
content-hash of prev_checkpoint (the strict inequality of the claim is
weakened to greater-or-equal; a checkpoint with an equal epoch passes
the epoch guard). -/
theorem gw_commitChildCheck_prev_checks (st : State) (caller : Addr) (ep : Int)
    (c : Checkpoint) (sub : GwSubnet) (prev : Checkpoint)
    (hsub : getSubnet st (SubnetID.newFromParent st.network_name caller) = some sub)
    (hprev : sub.prev_checkpoint = some prev)
    (hok : (commitChildCheck st caller ep c).2.2 = none) :
    prev.epoch ≤ c.epoch ∧ c.prev_check = checkpointCid prev := by
  have hpf : prevCheckFails sub.prev_checkpoint c = false := by
    cases hb : prevCheckFails sub.prev_checkpoint c
    · rfl
    · exfalso
      unfold commitChildCheck commitChildCheckTx at hok
      by_cases hc2 : caller ≠ c.source.subnetActor
      · rw [if_pos hc2] at hok
        cases hok
      · rw [if_neg hc2, hsub] at hok
        by_cases hst : sub.status ≠ Status.active
        · simp [hst] at hok
        · simp [hst, hb] at hok
  rw [hprev] at hpf
  simp only [prevCheckFails, Bool.or_eq_false_iff, decide_eq_false_iff_not, not_lt,
    bne_eq_false_iff_eq] at hpf
  exact ⟨hpf.1, hpf.2⟩

/-- C2 witness: the amended theorem applied to the concrete equal-epoch
commit accepted by the gateway of gwSt2. -/
theorem gw_C2_witness :
    prevCk.epoch ≤ ckEqualEpoch.epoch ∧
    ckEqualEpoch.prev_check = checkpointCid prevCk :=
  gw_commitChildCheck_prev_checks gwSt2 1 7 ckEqualEpoch
    { gwSub1 with prev_checkpoint := some prevCk } prevCk (by decide) (by decide) (by decide)

/-- C4 counterexample: the claim states ReleaseStake is atomic with its
outbound transfer.  In the code the stake decrement commits inside the
transaction and the transfer is a separate rt.send afterwards (gateway
lib.rs lines 176-216); under the spec's own §5/§7 runtime model a failed
send leaves the decrement in place: here the method fails, performs no
transfer, and the stake of /root/1 is nevertheless decremented by 5. -/
theorem gw_C4_release_not_atomic :
    (releaseStake gwSt0 1 MIN_COLLATERAL_AMOUNT 5 false).2.2 = some ActorErr.sendFailed ∧
    (releaseStake gwSt0 1 MIN_COLLATERAL_AMOUNT 5 false).2.1 = [] ∧
    getSubnet (releaseStake gwSt0 1 MIN_COLLATERAL_AMOUNT 5 false).1 [0, 1] =
      some (subAddStake gwSub1 (-5)) ∧
    (subAddStake gwSub1 (-5)).stake = gwSub1.stake - 5 := by
  decide

/-- C4 (amended): under the spec's §5/§7 model, when the ReleaseStake
transaction succeeds the stake is decremented by v and the transfer to
the caller happens exactly when the outbound send succeeds; a failed
send surfaces as the method's failure while the committed decrement
remains. -/
theorem gw_releaseStake_model (st : State) (caller : Addr) (bal v : Int) (sendOk : Bool)
    (sub : GwSubnet)
    (hsub : getSubnet st (SubnetID.newFromParent st.network_name caller) = some sub)
    (hv : 0 < v) (hstake : v ≤ sub.stake) (hbal : v ≤ bal) :
    (releaseStake st caller bal v sendOk).1 = flushSubnet st (subAddStake sub (-v)) ∧
    (subAddStake sub (-v)).stake = sub.stake - v ∧
    (sendOk = true →
      (releaseStake st caller bal v sendOk).2 = ([⟨caller, .methodSend, v⟩], none)) ∧
    (sendOk = false →
      (releaseStake st caller bal v sendOk).2 = ([], some .sendFailed)) := by
  unfold releaseStake
  rw [if_neg (not_le.mpr hv)]
  simp only [hsub]
  rw [if_neg (not_lt.mpr hstake), if_neg (not_lt.mpr hbal)]
  refine ⟨?_, ?_, ?_, ?_⟩
  · cases sendOk <;> rfl
  · simp [subAddStake]
    ring
  · intro h
    rw [h]
    rfl
  · intro h
    rw [h]
    rfl

/-- C4 witness: the amended theorem at a successful concrete release. -/
theorem gw_C4_witness :
    (releaseStake gwSt0 1 MIN_COLLATERAL_AMOUNT 5 true).1 =
      flushSubnet gwSt0 (subAddStake gwSub1 (-5)) ∧
    (subAddStake gwSub1 (-5)).stake = gwSub1.stake - 5 ∧
    (releaseStake gwSt0 1 MIN_COLLATERAL_AMOUNT 5 true).2 =
      ([⟨1, .methodSend, 5⟩], none) := by
  have h := gw_releaseStake_model gwSt0 1 MIN_COLLATERAL_AMOUNT 5 true gwSub1
    (by decide) (by decide) (by decide) (by decide)
  exact ⟨h.1, h.2.1, h.2.2.1 rfl⟩

/-- C6: in SendCross the equality check between the caller-attached
value and the message value runs before the CROSS_MSG_FEE deduction:
with a set destination different from the current network, a value
mismatch fails IllegalArgument with the state unchanged and no sends
(even when the message value could not cover the fee), and only when
the equality holds does the fee deduction run, failing
InsufficientFunds when the message value is at most the fee. -/
theorem gw_sendCross_value_check_first (st : State) (caller : Addr) (rtv ep : Int)
    (cm0 : CrossMsg) (dest : SubnetID)
    (hd0 : dest ≠ subnetDefault) (hdn : dest ≠ st.network_name) :
    (rtv ≠ cm0.msg.value →
       sendCross st caller false rtv ep cm0 dest = (st, [], some .illegalArgument)) ∧
    (rtv = cm0.msg.value → cm0.msg.value ≤ CROSS_MSG_FEE →
       sendCross st caller false rtv ep cm0 dest = (st, [], some .insufficientFunds)) := by
  unfold sendCross sendCrossTx
  rw [if_neg (by simp : ¬(false = true)), if_neg hd0, if_neg hdn]
  constructor
  · intro hne
    rw [if_pos (by simpa using hne)]
  · intro heq hle
    rw [if_neg (by simpa using heq)]
    unfold collectCrossFee
    rw [if_pos (by simpa using hle)]

/-- C6 witness: the theorem at a concrete mismatching call. -/
theorem gw_C6_witness :
    sendCross gwSt0 7 false 1 0 cmC1 [0, 1] = (gwSt0, [], some .illegalArgument) :=
  (gw_sendCross_value_check_first gwSt0 7 1 0 cmC1 [0, 1] (by decide) (by decide)).1 (by decide)

/-- C10: when a registered, active subnet has no prev_checkpoint, the
first child checkpoint commits successfully with any epoch and any
prev_check value (the epoch and hash comparisons are skipped), provided
the caller matches the source's subnet actor, the commit carries no
cross-message bundle and the window holds no entry for this source. -/
theorem gw_commitChildCheck_first_any_epoch (st : State) (caller : Addr) (ep : Int)
    (commit : Checkpoint) (sub : GwSubnet)
    (hsub : getSubnet st (SubnetID.newFromParent st.network_name caller) = some sub)
    (hact : sub.status = Status.active)
    (hprev : sub.prev_checkpoint = none)
    (hcaller : caller = commit.source.subnetActor)
    (hxm : commit.cross_msgs = none)
    (hdup : (getWindowCheckpoint st ep).child_checks.any
        (fun cc => cc.source == commit.source) = false) :
    ∀ e p, (commitChildCheck st caller ep
        { commit with epoch := e, prev_check := p }).2.2 = none := by
  intro e p
  unfold commitChildCheck commitChildCheckTx
  rw [if_neg (by simpa using hcaller)]
  simp only [hsub]
  rw [if_neg (by simp [hact])]
  rw [show prevCheckFails sub.prev_checkpoint { commit with epoch := e, prev_check := p } = false
      from by rw [hprev]; rfl]
  simp only [if_neg (by simp : ¬(False : Prop)), Bool.false_eq_true, if_false]
  simp only [show ({ commit with epoch := e, prev_check := p } : Checkpoint).cross_msgs =
      commit.cross_msgs from rfl, hxm]
  unfold addChildCheck
  rw [if_neg (by simp [show ({ commit with epoch := e, prev_check := p } : Checkpoint).source =
      commit.source from rfl, hdup])]

/-- C10 witness: the theorem at the concrete first checkpoint of
/root/1, instantiated at an arbitrary epoch and prev_check. -/
theorem gw_C10_witness :
    (commitChildCheck gwSt0 1 7 { ckFirst with epoch := -3, prev_check := 123 }).2.2 = none :=
  gw_commitChildCheck_first_any_epoch gwSt0 1 7 ckFirst gwSub1
    (by decide) (by decide) (by decide) (by decide) (by decide) (by decide) (-3) 123

/-- C3: after a successful Join with value v, the subnet actor sends
exactly one Register carrying the accumulated total stake when it was
Instantiated and the new total reaches MIN_COLLATERAL_AMOUNT, sends
nothing when it was Instantiated below the threshold, and sends exactly
one AddStake carrying v when it was not Instantiated. -/
theorem sa_join_gateway_sends (st : SAState) (caller : Addr) (na : Nat) (v : Int)
    (hv : 0 < v) :
    (join st caller na v).2.2 = none ∧
    (st.status = SAStatus.instantiated →
      MIN_COLLATERAL_AMOUNT ≤ st.total_stake + v →
      (join st caller na v).2.1 =
        some ⟨st.ipc_gateway_addr, .register, st.total_stake + v⟩) ∧
    (st.status = SAStatus.instantiated →
      st.total_stake + v < MIN_COLLATERAL_AMOUNT →
      (join st caller na v).2.1 = none) ∧
    (st.status ≠ SAStatus.instantiated →
      (join st caller na v).2.1 = some ⟨st.ipc_gateway_addr, .addStake, v⟩) := by
  unfold join
  rw [if_neg hv.ne']
  have hst : (saAddStake st caller na v).status = st.status := rfl
  have htot : (saAddStake st caller na v).total_stake = st.total_stake + v := rfl
  have hgw : (saAddStake st caller na v).ipc_gateway_addr = st.ipc_gateway_addr := rfl
  refine ⟨rfl, ?_, ?_, ?_⟩
  · intro h1 h2
    simp [hst, htot, hgw, h1, h2]
  · intro h1 h2
    simp [hst, htot, hgw, h1, not_le.mpr h2]
  · intro h1
    simp [hst, htot, hgw, h1]

/-- C3 witness: the second Join of the register-threshold scenario,
crossing the collateral threshold and producing the Register send. -/
theorem sa_C3_witness :
    (join saStHalf 12 0 (MIN_COLLATERAL_AMOUNT / 2)).2.2 = none ∧
    (join saStHalf 12 0 (MIN_COLLATERAL_AMOUNT / 2)).2.1 =
      some ⟨saStHalf.ipc_gateway_addr, .register,
            saStHalf.total_stake + MIN_COLLATERAL_AMOUNT / 2⟩ := by
  have h := sa_join_gateway_sends saStHalf 12 0 (MIN_COLLATERAL_AMOUNT / 2) (by decide)
  exact ⟨h.1, h.2.1 (by decide) (by decide)⟩

/-- Evaluation of propagate when its transaction fails. -/
theorem propagate_eq_err {st : State} {caller : Addr} {value ep : Int} {cid : Nat}
    {e : ActorErr} (hTx : propagateTx st caller value ep cid = .error e) :
    propagate st caller value ep cid = (st, [], some e) := by
  unfold propagate
  rw [hTx]

/-- Evaluation of propagate when its transaction succeeds. -/
theorem propagate_eq_ok {st : State} {caller : Addr} {value ep : Int} {cid : Nat}
    {st' : State} {cm' : CrossMsg} {b : Bool} {f rem : Int}
    (hTx : propagateTx st caller value ep cid = .ok (st', cm', b, f, rem)) :
    propagate st caller value ep cid =
      (st', crossMsgSideEffects st.network_name cm' b f ++
        (if rem ≠ 0 then [⟨caller, .methodSend, rem⟩] else []), none) := by
  unfold propagate
  rw [hTx]

/-- C7 counterexample: the claim states that re-invoking Propagate on a
removed postbox cid fails with IllegalState.  Concretely, after a
successful Propagate of cid 42 the second invocation fails with
UnhandledMessage ("cannot load from postbox", gateway lib.rs line 771),
not IllegalState, leaving the state unchanged. -/
theorem gw_C7_second_propagate_not_illegal_state :
    (propagate (propagate gwSt3 7 (2 * CROSS_MSG_FEE) 0 42).1 7 (2 * CROSS_MSG_FEE) 0 42).2.2 =
      some ActorErr.unhandledMessage ∧
    (propagate (propagate gwSt3 7 (2 * CROSS_MSG_FEE) 0 42).1 7 (2 * CROSS_MSG_FEE) 0 42).2.2 ≠
      some ActorErr.illegalState ∧
    (propagate (propagate gwSt3 7 (2 * CROSS_MSG_FEE) 0 42).1 7 (2 * CROSS_MSG_FEE) 0 42).1 =
      (propagate gwSt3 7 (2 * CROSS_MSG_FEE) 0 42).1 := by
  decide

/-- C7 (amended): a successful Propagate removes the postbox entry for
the cid and returns the unused remainder of the caller-attached value to
the caller; re-invoking Propagate on the removed cid fails with
UnhandledMessage (not IllegalState, the kind the claim states) and
leaves the state unchanged. -/
theorem gw_propagate_success_then_removed (st : State) (caller : Addr) (value ep : Int)
    (cid : Nat)
    (hok : (propagate st caller value ep cid).2.2 = none) :
    alookup cid (propagate st caller value ep cid).1.postbox = none ∧
    (value - CROSS_MSG_FEE ≠ 0 →
       (⟨caller, .methodSend, value - CROSS_MSG_FEE⟩ : GwSend) ∈
         (propagate st caller value ep cid).2.1) ∧
    (∀ c2 v2 e2, propagate (propagate st caller value ep cid).1 c2 v2 e2 cid =
       ((propagate st caller value ep cid).1, [], some .unhandledMessage)) := by
  cases hTx : propagateTx st caller value ep cid with
  | error e =>
    exfalso
    rw [propagate_eq_err hTx] at hok
    simp at hok
  | ok tup =>
    obtain ⟨st', cm', doBurn, tdFee, rem⟩ := tup
    rw [propagate_eq_ok hTx]
    unfold propagateTx at hTx
    cases hl : alookup cid st.postbox with
    | none =>
      simp [hl] at hTx
    | some item =>
      simp only [hl] at hTx
      by_cases hrej : ownersReject item.owners caller = true
      · simp only [if_pos hrej] at hTx
        cases hTx
      · simp only [if_neg hrej] at hTx
        cases hcf : collectCrossFee value CROSS_MSG_FEE with
        | error e =>
          simp only [hcf] at hTx
          cases hTx
        | ok v' =>
          simp only [hcf] at hTx
          cases hcm : commitCrossMessage st ep item.cross_msg CROSS_MSG_FEE with
          | error e =>
            simp only [hcm] at hTx
            cases hTx
          | ok q =>
            obtain ⟨st₁, cm₁, b₁, f₁⟩ := q
            simp only [hcm, Except.ok.injEq, Prod.mk.injEq] at hTx
            obtain ⟨h1, h2, h3, h4, h5⟩ := hTx
            subst h1 h2 h3 h4 h5
            have hv' : v' = value - CROSS_MSG_FEE := by
              unfold collectCrossFee at hcf
              by_cases hle : value ≤ CROSS_MSG_FEE
              · rw [if_pos hle] at hcf
                cases hcf
              · rw [if_neg hle] at hcf
                exact (Except.ok.inj hcf).symm
            subst hv'
            have hrm : alookup cid
                ({ st₁ with postbox := aremove cid st₁.postbox } : State).postbox = none := by
              simpa using alookup_aremove_self cid st₁.postbox
            refine ⟨hrm, ?_, ?_⟩
            · intro hne
              rw [if_pos hne]
              exact List.mem_append_right _ (by simp)
            · intro c2 v2 e2
              refine propagate_eq_err ?_
              unfold propagateTx
              rw [hrm]

/-- C7 witness: the amended theorem at the concrete owned postbox item
of gwSt3, where propagation succeeds. -/
theorem gw_C7_witness :
    alookup 42 (propagate gwSt3 7 (2 * CROSS_MSG_FEE) 0 42).1.postbox = none ∧
    (⟨7, .methodSend, 2 * CROSS_MSG_FEE - CROSS_MSG_FEE⟩ : GwSend) ∈
      (propagate gwSt3 7 (2 * CROSS_MSG_FEE) 0 42).2.1 ∧
    propagate (propagate gwSt3 7 (2 * CROSS_MSG_FEE) 0 42).1 8 (2 * CROSS_MSG_FEE) 0 42 =
      ((propagate gwSt3 7 (2 * CROSS_MSG_FEE) 0 42).1, [], some .unhandledMessage) := by
  have h := gw_propagate_success_then_removed gwSt3 7 (2 * CROSS_MSG_FEE) 0 42 (by decide)
  exact ⟨h.1, h.2.1 (by decide), h.2.2 8 (2 * CROSS_MSG_FEE) 0⟩

/-- C9: for a postbox item whose owners field is None, Propagate
performs no caller authorization: the resulting state and error are
independent of the caller (only the refund recipient differs), while
WhitelistPropagator on such an item always fails with IllegalState. -/
theorem gw_postbox_no_owner_auth (st : State) (cid : Nat) (item : PostBoxItem)
    (hl : alookup cid st.postbox = some item) (ho : item.owners = none) :
    (∀ c1 c2 v ep, (propagate st c1 v ep cid).1 = (propagate st c2 v ep cid).1 ∧
       (propagate st c1 v ep cid).2.2 = (propagate st c2 v ep cid).2.2) ∧
    (∀ c toAdd, whitelistPropagator st c cid toAdd = (st, some .illegalState)) := by
  constructor
  · intro c1 c2 v ep
    unfold propagate propagateTx
    simp only [hl, ho, ownersReject]
    cases hcf : collectCrossFee v CROSS_MSG_FEE with
    | error e => simp
    | ok v' =>
      cases hcm : commitCrossMessage st ep item.cross_msg CROSS_MSG_FEE with
      | error e => simp
      | ok q =>
        obtain ⟨st₁, cm₁, b₁, f₁⟩ := q
        simp
  · intro c toAdd
    unfold whitelistPropagator
    simp only [hl, ho]

/-- C9 witness: the theorem at the concrete unowned postbox item of
gwSt4, for two different callers. -/
theorem gw_C9_witness :
    (propagate gwSt4 5 (2 * CROSS_MSG_FEE) 0 43).1 =
      (propagate gwSt4 8 (2 * CROSS_MSG_FEE) 0 43).1 ∧
    (propagate gwSt4 5 (2 * CROSS_MSG_FEE) 0 43).2.2 =
      (propagate gwSt4 8 (2 * CROSS_MSG_FEE) 0 43).2.2 ∧
    whitelistPropagator gwSt4 5 43 [6] = (gwSt4, some .illegalState) := by
  have h := gw_postbox_no_owner_auth gwSt4 43 itemUnowned (by decide) (by decide)
  exact ⟨(h.1 5 8 (2 * CROSS_MSG_FEE) 0).1, (h.1 5 8 (2 * CROSS_MSG_FEE) 0).2, h.2 5 [6]⟩

/-- C5: in SubmitCheckpoint, after appending the caller's vote: when
the stake-weighted vote mass reaches two thirds of total_stake the call
succeeds, exactly one CommitChildCheckpoint(ch) send to the gateway is
produced, the checkpoint is flushed locally and no vote set remains
stored for hash(ch); below the threshold no gateway send is produced
and the updated vote set is persisted. -/
theorem sa_submitCheckpoint_quorum (st : SAState) (caller : Addr) (ch : Checkpoint)
    (hval : isValidator st caller = true)
    (hver : verifyCheckpoint st ch = true)
    (hnd : caller ∉ ((alookup (checkpointCid ch) st.votesMap).getD ⟨[]⟩).validators) :
    (submitCheckpoint st caller ch).2.2 = none ∧
    (hasMajorityVote st
        ⟨((alookup (checkpointCid ch) st.votesMap).getD ⟨[]⟩).validators ++ [caller]⟩ = true →
      (submitCheckpoint st caller ch).2.1 =
        some ⟨st.ipc_gateway_addr, .commitChildCheckpoint ch, 0⟩ ∧
      alookup (checkpointCid ch) (submitCheckpoint st caller ch).1.votesMap = none ∧
      ch ∈ (submitCheckpoint st caller ch).1.checkpoints) ∧
    (hasMajorityVote st
        ⟨((alookup (checkpointCid ch) st.votesMap).getD ⟨[]⟩).validators ++ [caller]⟩ = false →
      (submitCheckpoint st caller ch).2.1 = none ∧
      alookup (checkpointCid ch) (submitCheckpoint st caller ch).1.votesMap =
        some ⟨((alookup (checkpointCid ch) st.votesMap).getD ⟨[]⟩).validators ++ [caller]⟩) := by
  unfold submitCheckpoint
  simp only [hval, hver, Bool.not_true, Bool.false_eq_true, if_false]
  cases hl : alookup (checkpointCid ch) st.votesMap with
  | none =>
    simp only [hl, Option.getD_none, List.nil_append]
    simp only [submitTally]
    by_cases hm : hasMajorityVote st ⟨[caller]⟩ = true
    · refine ⟨by simp [hm], ?_, ?_⟩
      · intro _
        exact ⟨by simp [hm], by simp [hm, hl], by simp [hm]⟩
      · intro hm'
        simp [hm] at hm'
    · refine ⟨by simp [hm], ?_, ?_⟩
      · intro hm'
        exact absurd hm' hm
      · intro _
        exact ⟨by simp [hm], by simp [hm, alookup_aset_self]⟩
  | some votes =>
    have hcont : votes.validators.contains caller = false := by
      rw [hl] at hnd
      simpa using hnd
    simp only [hl, Option.getD_some, hcont, Bool.false_eq_true, if_false]
    simp only [submitTally]
    by_cases hm : hasMajorityVote st ⟨votes.validators ++ [caller]⟩ = true
    · refine ⟨by simp [hm], ?_, ?_⟩
      · intro _
        exact ⟨by simp [hm], by simp [hm, alookup_aremove_self], by simp [hm]⟩
      · intro hm'
        simp [hm] at hm'
    · refine ⟨by simp [hm], ?_, ?_⟩
      · intro hm'
        exact absurd hm' hm
      · intro _
        exact ⟨by simp [hm], by simp [hm, alookup_aset_self]⟩

/-- C5 witness: the quorum scenario with stakes (40, 40, 20): after
votes by 1 and 3, the vote of 2 crosses two thirds, flushes chV, sends
CommitChildCheckpoint and purges the vote set. -/
theorem sa_C5_witness :
    (submitCheckpoint saStV 2 chV).2.2 = none ∧
    (submitCheckpoint saStV 2 chV).2.1 =
      some ⟨saStV.ipc_gateway_addr, .commitChildCheckpoint chV, 0⟩ ∧
    alookup (checkpointCid chV) (submitCheckpoint saStV 2 chV).1.votesMap = none ∧
    chV ∈ (submitCheckpoint saStV 2 chV).1.checkpoints := by
  have h := sa_submitCheckpoint_quorum saStV 2 chV (by decide) (by decide) (by decide)
  have hm := h.2.1 (by decide)
  exact ⟨h.1, hm.1, hm.2.1, hm.2.2⟩

/-- C8: a second SubmitCheckpoint vote by a validator already present
in the stored vote set of hash(ch) fails with IllegalState and leaves
the whole state (its vote sets included) unchanged; moreover
submit_checkpoint preserves the invariant that every stored vote set
lists each validator at most once. -/
theorem sa_submit_duplicate_vote (st : SAState) (caller : Addr) (ch : Checkpoint) :
    (∀ v, alookup (checkpointCid ch) st.votesMap = some v → caller ∈ v.validators →
       submitCheckpoint st caller ch = (st, none, some .illegalState)) ∧
    ((∀ k w, alookup k st.votesMap = some w → w.validators.Nodup) →
       ∀ k w, alookup k (submitCheckpoint st caller ch).1.votesMap = some w →
         w.validators.Nodup) := by
  constructor
  · intro v hv hmem
    unfold submitCheckpoint
    cases hval : isValidator st caller with
    | false => rfl
    | true =>
      cases hver : verifyCheckpoint st ch with
      | false => rfl
      | true =>
        have hcont : v.validators.contains caller = true := by simpa using hmem
        simp only [Bool.not_true, Bool.false_eq_true, if_false, hv, hcont, if_true]
  · intro hnod k w
    unfold submitCheckpoint
    cases hval : isValidator st caller with
    | false =>
      simp only [Bool.not_false, if_pos rfl]
      exact fun hw => hnod k w hw
    | true =>
      cases hver : verifyCheckpoint st ch with
      | false =>
        simp only [Bool.not_true, Bool.false_eq_true, if_false, Bool.not_false, if_pos rfl]
        exact fun hw => hnod k w hw
      | true =>
        simp only [Bool.not_true, Bool.false_eq_true, if_false]
        cases hl : alookup (checkpointCid ch) st.votesMap with
        | none =>
          simp only [submitTally]
          by_cases hm : hasMajorityVote st ⟨[caller]⟩ = true
          · simp [hm]
            exact fun hw => hnod k w hw
          · simp [hm]
            intro hw
            rcases alookup_aset_some hw with hnew | hold
            · subst hnew
              simp
            · exact hnod k w hold
        | some votes =>
          cases hcont : votes.validators.contains caller with
          | true =>
            have hmem : caller ∈ votes.validators := by simpa using hcont
            simp [hmem]
            exact fun hw => hnod k w hw
          | false =>
            have hmem : caller ∉ votes.validators := by simpa using hcont
            simp only [submitTally]
            by_cases hm : hasMajorityVote st ⟨votes.validators ++ [caller]⟩ = true
            · simp [hm, hmem]
              intro hw
              have hw' : alookup k st.votesMap = some w := by
                refine alookup_aremove_some (checkpointCid ch) ?_
                simpa using hw
              exact hnod k w hw'
            · simp [hm, hmem]
              intro hw
              rcases alookup_aset_some hw with hnew | hold
              · subst hnew
                rw [List.nodup_append]
                refine ⟨hnod (checkpointCid ch) votes hl, List.nodup_singleton _, ?_⟩
                intro x hx hx'
                rw [List.mem_singleton] at hx'
                subst hx'
                exact hmem hx
              · exact hnod k w hold

/-- C8 witness: validator 1 already voted for chV in saStV; a second
vote is rejected with IllegalState, leaving the state unchanged. -/
theorem sa_C8_witness :
    submitCheckpoint saStV 1 chV = (saStV, none, some .illegalState) :=
  (sa_submit_duplicate_vote saStV 1 chV).1 ⟨[1, 3]⟩ (by decide) (by decide)

end IpcActors
